import Mathlib

/-!
Verification development for the GeographicLib geodesic solver
(`src/GeographicLib/Geodesic.cpp`, Karney 2008/2009 reformulation).

The C++ source is shallowly embedded over exact real arithmetic: every
`double` becomes a real number, every helper function of the source file
becomes a Lean definition with the same structure, bounded loops become
fuel-indexed recursions with the exact loop bodies, and C `atan2` becomes
the principal argument of the complex number `x + i y`.

Helpers that the source file uses but that live in the missing header
`Geodesic.hpp` / `Constants.hpp` (`AngNormalize`, `AngRound`, `SinCosNorm`,
`hypot`, `azi2sense`, the WGS84 constants) are modelled from the
specification, as marked in their doc comments.  The series order is the
reference setting N = 8, i.e. the `MAXPOW >= 8` branches of the source.
-/

open Real

namespace Geo

/-- `Geodesic::sq` (header): the square of a real number. -/
noncomputable def sq (x : ℝ) : ℝ := x * x

/-- Modelled from the spec: `hypot(x, y)` returns `sqrt(x^2 + y^2)` (§4.1);
the declaration lives in the missing header `Geodesic.hpp`. -/
noncomputable def hypot (x y : ℝ) : ℝ := Real.sqrt (x * x + y * y)

/-- Modelled from the spec: `SinCosNorm(s, c)` divides both components by
`sqrt(s^2 + c^2)` (§4.1); declared in the missing header. -/
noncomputable def sinCosNorm (s c : ℝ) : ℝ × ℝ := (s / hypot s c, c / hypot s c)

/-- C `atan2(y, x)` for a `y` argument that is not a signed zero: the
principal argument of the complex number `x + i y`, in `(-pi, pi]`. -/
noncomputable def atan2 (y x : ℝ) : ℝ := Complex.arg ⟨x, y⟩

/-- C `atan2(-(s * salp), x)` with the IEEE sign of a zero first argument
tracked (the azimuth finalizations, source lines 410-421 and 667-669).
Every sine `salp` that reaches an azimuth finalization is a nonnegative
double whose zero has sign bit `+0`: it is a literal `0` (lines 159, 173),
`sin` of a nonnegative canonical angle (lines 159, 168, 277), `max(0.0, .)`
(line 386), or a product or quotient of such a value by a positive double
(`SinCosNorm`, `salp0/cbet2`); and `s` is the exact plus-or-minus-one sign product
multiplied into it.  So at `salp = 0` the first argument `-(s * salp)` is
the double `-0` when `s > 0` and `+0` when `s < 0`, and C99 `atan2`
returns `-pi` for `(-0, x < 0)` and `+pi` for `(+0, x < 0)`.  When both
arguments vanish the sources never reach this formula with a normalized
pair, and the model returns `atan2 0 0 = 0`. -/
noncomputable def atan2z (s salp x : ℝ) : ℝ :=
  if salp = 0 ∧ x < 0 then (if 0 < s then -π else π)
  else atan2 (-(s * salp)) x

/-- `Constants::degree()` (missing header, modelled from the spec §6):
the radians-per-degree factor `pi / 180`. -/
noncomputable def degree : ℝ := π / 180

/-- `Geodesic::eps2 = sqrt(numeric_limits<double>::min())` (source line 51);
the smallest positive normal double is `2^-1022`. -/
noncomputable def eps2 : ℝ := Real.sqrt ((2 : ℝ) ^ (-1022 : ℤ))

/-- `Geodesic::tol = 100 * numeric_limits<double>::epsilon()` (source line 52);
the double machine epsilon is `2^-52`. -/
noncomputable def tol : ℝ := 100 * (2 : ℝ) ^ (-52 : ℤ)

/-- `Geodesic::tol1 = sqrt(numeric_limits<double>::epsilon())` (source line 53). -/
noncomputable def tol1 : ℝ := Real.sqrt ((2 : ℝ) ^ (-52 : ℤ))

/-- `Geodesic::xthresh = 10 * tol1` (source line 54). -/
noncomputable def xthresh : ℝ := 10 * tol1

/-- Modelled from the spec: the snapping threshold of `AngRound` (§4.1,
"a small multiple of machine epsilon"); here `2^4 * 2^-52`. -/
noncomputable def angRoundEps : ℝ := (2 : ℝ) ^ (-48 : ℤ)

/-- Modelled from the spec: `AngRound(x)` snaps angles smaller than the
threshold to zero and leaves all other angles unchanged (§4.1); declared in
the missing header. -/
noncomputable def angRound (x : ℝ) : ℝ := if |x| < angRoundEps then 0 else x

/-- Modelled from the spec: `AngNormalize(x)` reduces `x` by multiples of
360 into `(-180, 180]` (§4.1); declared in the missing header. -/
noncomputable def angNormalize (x : ℝ) : ℝ := x - 360 * ⌈(x - 180) / 360⌉

/-- Modelled from the spec: `azi2sense` selects the direction convention of
the returned second azimuth; the canonical contract pins it to `+1` (§4.5,
design note in §9). -/
noncomputable def azi2sense : ℝ := 1

/-- The Clenshaw accumulator pair of `Geodesic::SinSeries` (source lines
68-81): for coefficients `[c_j, ..., c_{n-1}]` it returns the pair
`(y0, y1)` that the source loop holds after processing indices down to `j`,
i.e. the pair of Clenshaw values `(b_{j+1}, b_{j+2})` with
`b_k = ar * b_{k+1} - b_{k+2} + c_{k-1}`. -/
noncomputable def clenshawPair (ar : ℝ) : List ℝ → ℝ × ℝ
  | [] => (0, 0)
  | c0 :: rest =>
    let p := clenshawPair ar rest
    (ar * p.1 - p.2 + c0, p.1)

/-- `Geodesic::SinSeries(sinx, cosx, c, n)` (source lines 68-81) with the
coefficient array given as a list of length `n`: Clenshaw summation of
`sum(c[i-1] * sin(2 i x), i = 1..n)` with `ar = 2 * (cosx^2 - sinx^2)`,
`y0` initialized to `c[n-1]`, `y1` to `0`, and result
`2 * sinx * cosx * y0`.  The source requires `n` positive; for the empty
list this definition returns `0`. -/
noncomputable def sinSeries (sinx cosx : ℝ) (c : List ℝ) : ℝ :=
  2 * sinx * cosx * (clenshawPair (2 * (sq cosx - sq sinx)) c).1

/-- `Geodesic::tauScale(u2)` (source lines 699-700, `MAXPOW_TAUSC >= 8`). -/
noncomputable def tauScale (u2 : ℝ) : ℝ :=
  (u2*(u2*(u2*(u2*(u2*(u2*((3624192-2760615*u2)*u2-4967424)+7225344)-
    11468800)+20971520)-50331648)+268435456)+1073741824)/1073741824

/-- `Geodesic::tauCoeff(u2, c)` (source lines 767-784, `MAXPOW_TAUCOEF >= 8`):
the eight sine-series coefficients converting sigma to tau; the source's
running factor `t` is `u2^(k+1)` at coefficient `k`. -/
noncomputable def tauCoeff (u2 : ℝ) : List ℝ :=
  let t1 := u2
  let t2 := t1 * u2
  let t3 := t2 * u2
  let t4 := t3 * u2
  let t5 := t4 * u2
  let t6 := t5 * u2
  let t7 := t6 * u2
  let t8 := t7 * u2
  [t1*(u2*(u2*(u2*(u2*(u2*(u2*(428731*u2-557402)+748544)-1046528)+
      1540096)-2424832)+4194304)-8388608)/67108864,
   t2*(u2*(u2*(u2*(u2*((480096-397645*u2)*u2-586016)+720896)-884736)+
      1048576)-1048576)/268435456,
   t3*(u2*(u2*(u2*(u2*(92295*u2-100482)+106880)-108288)+98304)-65536)/
      201326592,
   t4*(u2*(u2*((128512-136971*u2)*u2-111104)+81920)-40960)/1073741824,
   t5*(u2*(u2*(9555*u2-7210)+4480)-1792)/335544320,
   t6*((672-1251*u2)*u2-224)/268435456,
   t7*(231*u2-66)/469762048,
   -429*t8/17179869184]

/-- `Geodesic::sigCoeff(u2, d)` (source lines 853-871, `MAXPOW_SIGCOEF >= 8`):
the eight sine-series coefficients of the reversion converting tau to
sigma. -/
noncomputable def sigCoeff (u2 : ℝ) : List ℝ :=
  let t1 := u2
  let t2 := t1 * u2
  let t3 := t2 * u2
  let t4 := t3 * u2
  let t5 := t4 * u2
  let t6 := t5 * u2
  let t7 := t6 * u2
  let t8 := t7 * u2
  [t1*(u2*(u2*(u2*(u2*(u2*((15107266-11062823*u2)*u2-21467904)+
      31944192)-50135040)+83755008)-150994944)+301989888)/2415919104,
   t2*(u2*(u2*(u2*(u2*(u2*(112064929*u2-151134240)+206026080)-
      281149440)+376504320)-471859200)+471859200)/24159191040,
   t3*(u2*(u2*(u2*((2266302-1841049*u2)*u2-2690560)+2976768)-2850816)+
      1900544)/402653184,
   t4*(u2*(u2*(u2*(174543337*u2-182201856)+171121152)-132464640)+
      66232320)/48318382080,
   t5*(u2*((5126290-6292895*u2)*u2-3328320)+1331328)/3019898880,
   t6*(u2*(45781749*u2-25590432)+8530144)/56371445760,
   t7*(918970-3216395*u2)/16911433728,
   109167851*t8/5411658792960]

/-- `Geodesic::dlamScale(f, mu)` (source lines 897-904, `MAXPOW_LAMSC >= 8`). -/
noncomputable def dlamScale (f mu : ℝ) : ℝ :=
  let g := (f*(f*(f*(f*(f*(f*(f*mu*(mu*(mu*(mu*(mu*(mu*(184041*mu-960498)+
    2063880)-2332400)+1459200)-479232)+65536)+mu*(mu*(mu*(mu*((544320-121968*
    mu)*mu-963200)+844800)-368640)+65536))+mu*(mu*(mu*(mu*(84672*mu-313600)+
    435200)-270336)+65536))+mu*(mu*((184320-62720*mu)*mu-184320)+65536))+mu*
    (mu*(51200*mu-110592)+65536))+(65536-49152*mu)*mu)+65536*mu)-262144)/
    262144
  f * g

/-- `Geodesic::dlamScalemu(f, mu)` (source lines 928-934, `MAXPOW_LAMSC >= 8`). -/
noncomputable def dlamScalemu (f mu : ℝ) : ℝ :=
  let h := (f*(f*(f*(f*(f*(f*(mu*(mu*(mu*(mu*(mu*(1288287*mu-5762988)+
    10319400)-9329600)+4377600)-958464)+65536)+mu*(mu*(mu*((2721600-731808*
    mu)*mu-3852800)+2534400)-737280)+65536)+mu*(mu*(mu*(423360*mu-1254400)+
    1305600)-540672)+65536)+mu*((552960-250880*mu)*mu-368640)+65536)+mu*
    (153600*mu-221184)+65536)-98304*mu+65536)+65536)/262144
  h * sq f

/-- `Geodesic::dlamCoeff(f, mu, e)` (source lines 1015-1046,
`MAXPOW_LAMCOEF >= 8`): the eight longitude-correction sine-series
coefficients; the source's running factor `t` is `(f*mu)^(k+1)` at
coefficient `k`. -/
noncomputable def dlamCoeff (f mu : ℝ) : List ℝ :=
  let s := f * mu
  let t1 := s
  let t2 := t1 * s
  let t3 := t2 * s
  let t4 := t3 * s
  let t5 := t4 * s
  let t6 := t5 * s
  let t7 := t6 * s
  let t8 := t7 * s
  [(f*(f*(f*(f*(f*(f*(f*(mu*(mu*(mu*(mu*(mu*((30816920-5080225*mu)*mu-
      79065664)+110840000)-91205632)+43638784)-11010048)+1048576)+mu*(mu*(mu*
      (mu*(mu*(3213004*mu-17049088)+37224832)-42637312)+26828800)-8650752)+
      1048576)+mu*(mu*(mu*((9543424-2100608*mu)*mu-17160192)+15196160)-
      6553600)+1048576)+mu*(mu*(mu*(1435648*mu-5419008)+7626752)-4718592)+
      1048576)+mu*((3129344-1044480*mu)*mu-3145728)+1048576)+mu*(835584*mu-
      1835008)+1048576)-786432*mu+1048576)+1048576)*t1/8388608,
   (f*(f*(f*(f*(f*(f*(mu*(mu*(mu*(mu*(mu*(2092939*mu-12074982)+
      29005488)-37129344)+26700800)-10207232)+1605632)+mu*(mu*(mu*((6316264-
      1270932*mu)*mu-12598272)+12618240)-6348800)+1277952)+mu*(mu*(mu*(787136*
      mu-3268608)+5143040)-3645440)+983040)+mu*((1648640-498688*mu)*mu-
      1859584)+720896)+mu*(323584*mu-778240)+491520)-212992*mu+294912)+131072)*
      t2/8388608,
   (f*(f*(f*(f*(f*(mu*(mu*(mu*((13101384-2474307*mu)*mu-28018000)+
      30323072)-16658432)+3727360)+mu*(mu*(mu*(1386756*mu-6137024)+10352064)-
      7923712)+2334720)+mu*((2705152-770048*mu)*mu-3254272)+1351680)+mu*
      (416256*mu-1052672)+696320)-208896*mu+294912)+81920)*t3/25165824,
   (f*(f*(f*(f*(mu*(mu*(mu*(273437*mu-1265846)+2238200)-1799088)+
      557760)+mu*((492328-134532*mu)*mu-616928)+266560)+mu*(62080*mu-162048)+
      110080)-25088*mu+35840)+7168)*t4/8388608,
   (f*(f*(f*(mu*((1333160-353765*mu)*mu-1718160)+761600)+mu*(142140*mu-
      379200)+262080)-48000*mu+69120)+10752)*t5/41943040,
   (f*(f*(mu*(39633*mu-107426)+75152)-11484*mu+16632)+2112)*t6/25165824,
   (f*(16016-11011*mu)+1716)*t7/58720256,
   715*t8/67108864]

/-- `Geodesic::dlamCoeffmu(f, mu, h)` (source lines 1129-1161,
`MAXPOW_LAMCOEF >= 8`): the mu-derivatives of the longitude-correction
coefficients; the source's running factor `t` starts at `f` and is
multiplied by `s = f*mu` between coefficients, so it is `f*(f*mu)^k` at
coefficient `k`. -/
noncomputable def dlamCoeffmu (f mu : ℝ) : List ℝ :=
  let s := f * mu
  let t1 := f
  let t2 := t1 * s
  let t3 := t2 * s
  let t4 := t3 * s
  let t5 := t4 * s
  let t6 := t5 * s
  let t7 := t6 * s
  let t8 := t7 * s
  [(f*(f*(f*(f*(f*(f*(f*(mu*(mu*(mu*(mu*(mu*((53929610-10160450*mu)*mu-
      118598496)+138550000)-91205632)+32729088)-5505024)+262144)+mu*(mu*(mu*
      (mu*(mu*(5622757*mu-25573632)+46531040)-42637312)+20121600)-4325376)+
      262144)+mu*(mu*(mu*((11929280-3150912*mu)*mu-17160192)+11397120)-
      3276800)+262144)+mu*(mu*(mu*(1794560*mu-5419008)+5720064)-2359296)+
      262144)+mu*((2347008-1044480*mu)*mu-1572864)+262144)+mu*(626688*mu-
      917504)+262144)-393216*mu+262144)+262144)*t1/2097152,
   (f*(f*(f*(f*(f*(f*(mu*(mu*(mu*(mu*(mu*(8371756*mu-42262437)+
      87016464)-92823360)+53401600)-15310848)+1605632)+mu*(mu*(mu*((18948792-
      4448262*mu)*mu-31495680)+25236480)-9523200)+1277952)+mu*(mu*(mu*(2361408*
      mu-8171520)+10286080)-5468160)+983040)+mu*((3297280-1246720*mu)*mu-
      2789376)+720896)+mu*(647168*mu-1167360)+491520)-319488*mu+294912)+
      131072)*t2/4194304,
   (f*(f*(f*(f*(f*(mu*(mu*(mu*((22927422-4948614*mu)*mu-42027000)+
      37903840)-16658432)+2795520)+mu*(mu*(mu*(2426823*mu-9205536)+12940080)-
      7923712)+1751040)+mu*((3381440-1155072*mu)*mu-3254272)+1013760)+mu*
      (520320*mu-1052672)+522240)-208896*mu+221184)+61440)*t3/6291456,
   (f*(f*(f*(f*(mu*(mu*(mu*(1093748*mu-4430461)+6714600)-4497720)+
      1115520)+mu*((1476984-470862*mu)*mu-1542320)+533120)+mu*(186240*mu-
      405120)+220160)-62720*mu+71680)+14336)*t4/4194304,
   (f*(f*(f*(mu*((466606-141506*mu)*mu-515448)+190400)+mu*(49749*mu-
      113760)+65520)-14400*mu+17280)+2688)*t5/2097152,
   (f*(f*(mu*(158532*mu-375991)+225456)-40194*mu+49896)+6336)*t6/
      12582912,
   (f*(4004-3146*mu)+429)*t7/2097152,
   715*t8/8388608]

/-- The ellipsoid data carried by `GeographicLib::Geodesic` (source lines
56-63): equatorial radius, flattening and the derived constants. -/
structure Geodesic where
  a : ℝ
  f : ℝ
  f1 : ℝ
  e2 : ℝ
  ep2 : ℝ
  b : ℝ

/-- The `Geodesic::Geodesic(a, r)` constructor (source lines 56-63):
`f = r > 0 ? 1/r : 0`, `f1 = 1 - f`, `e2 = f*(2-f)`, `ep2 = e2/f1^2`,
`b = a*f1`. -/
noncomputable def geodesic (a r : ℝ) : Geodesic :=
  let f := if 0 < r then 1 / r else 0
  let f1 := 1 - f
  let e2 := f * (2 - f)
  { a := a, f := f, f1 := f1, e2 := e2, ep2 := e2 / sq f1, b := a * f1 }

/-- `Geodesic::WGS84` (source lines 65-66); the constants
`a = 6378137`, `1/f = 298.257223563` are modelled from the spec §6 since
`Constants.hpp` is not part of the source tree. -/
noncomputable def wgs84 : Geodesic := geodesic 6378137 (298257223563 / 1000000000)

/-- The first statement of `Geodesic::Chi12` (source lines 440-443): the
degenerate equatorial heading `sbet1 == 0 && calp1 == 0` has `calp1`
replaced by `-eps2` before any use. -/
noncomputable def chi12Guard (sbet1 calp1 : ℝ) : ℝ :=
  if sbet1 = 0 ∧ calp1 = 0 then -eps2 else calp1

/-- The value `calp0 = hypot(calp1, salp1 * sbet1)` computed by
`Geodesic::Chi12` (source line 448) after the degeneracy guard. -/
noncomputable def chi12Calp0 (sbet1 salp1 calp1 : ℝ) : ℝ :=
  hypot (chi12Guard sbet1 calp1) (salp1 * sbet1)

/-- The outputs of `Geodesic::Chi12` (source lines 426-544): the returned
longitude difference `chi12` and the by-reference outputs; `dchi12` is the
derivative that the source computes under `diffp` (here computed
unconditionally; the caller uses it only when the source would). -/
structure Chi12Out where
  chi12 : ℝ
  salp2 : ℝ
  calp2 : ℝ
  sig12 : ℝ
  ssig1 : ℝ
  csig1 : ℝ
  ssig2 : ℝ
  csig2 : ℝ
  u2 : ℝ
  dchi12 : ℝ

/-- An all-zero `Chi12Out`, used as the initial carried value of the Newton
loop (never read, since the loop always runs at least one body). -/
noncomputable def zeroChi : Chi12Out :=
  { chi12 := 0, salp2 := 0, calp2 := 0, sig12 := 0, ssig1 := 0, csig1 := 0,
    ssig2 := 0, csig2 := 0, u2 := 0, dchi12 := 0 }

/-- `Geodesic::Chi12` (source lines 426-544).  The `#if ALTAZI` block is
excluded (the flag is not defined in the source) and the `ITER` counter is
debug scaffolding. -/
noncomputable def chi12F (g : Geodesic) (sbet1 cbet1 sbet2 cbet2 salp1 calp1 : ℝ) :
    Chi12Out :=
  let calp1g := chi12Guard sbet1 calp1
  let salp0 := salp1 * cbet1
  let calp0 := chi12Calp0 sbet1 salp1 calp1
  let p1 := sinCosNorm sbet1 (calp1g * cbet1)
  let ssig1 := p1.1
  let csig1 := p1.2
  let q1 := sinCosNorm (salp0 * sbet1) (calp1g * cbet1)
  let slam1 := q1.1
  let clam1 := q1.2
  let salp2 := if cbet2 ≠ cbet1 then salp0 / cbet2 else salp1
  let calp2 :=
    if cbet2 ≠ cbet1 ∨ |sbet2| ≠ -sbet1 then
      Real.sqrt (sq (calp1g * cbet1) +
        (if cbet1 < -sbet1 then (cbet2 - cbet1) * (cbet1 + cbet2)
         else (sbet1 - sbet2) * (sbet1 + sbet2))) / cbet2
    else |calp1g|
  let p2 := sinCosNorm sbet2 (calp2 * cbet2)
  let ssig2 := p2.1
  let csig2 := p2.2
  let q2 := sinCosNorm (salp0 * sbet2) (calp2 * cbet2)
  let slam2 := q2.1
  let clam2 := q2.2
  let sig12 := atan2 (max (csig1 * ssig2 - ssig1 * csig2) 0)
    (csig1 * csig2 + ssig1 * ssig2)
  let lam12 := atan2 (max (clam1 * slam2 - slam1 * clam2) 0)
    (clam1 * clam2 + slam1 * slam2)
  let mu := sq calp0
  let cl := dlamCoeff g.f mu
  let eta12 := sinSeries ssig2 csig2 cl - sinSeries ssig1 csig1 cl
  let lamscale := dlamScale g.f mu
  let chi := lam12 + salp0 * lamscale * (sig12 + eta12)
  let dalp0 := cbet1 * calp1g / calp0
  let dalp2 := if calp2 ≠ 0 then calp1g * cbet1 / (calp2 * cbet2)
    else if calp1g ≥ 0 then 1 else -1
  let dsig1 := ssig1 * salp0 / calp0
  let dsig2 := ssig2 * salp0 / calp0 * dalp2
  let dlam1 := sbet1 * sq clam1 + slam1 * salp0 / (calp0 * cbet1)
  let dlam2 := (sbet2 * sq clam2 + slam2 * salp0 / (calp0 * cbet2)) * dalp2
  let hl := dlamCoeffmu g.f mu
  let dmu := -2 * calp0 * salp0 * dalp0
  let deta12 := dmu * (sinSeries ssig2 csig2 hl - sinSeries ssig1 csig1 hl)
  let dlamscale := dlamScalemu g.f mu * dmu
  let dchisig := -g.e2 * salp0 *
    (dsig2 / (Real.sqrt (1 - g.e2 * (1 - mu * sq ssig2)) + 1) -
     dsig1 / (Real.sqrt (1 - g.e2 * (1 - mu * sq ssig1)) + 1))
  let dchi := (dlam2 - dlam1) + dchisig +
    (dalp0 * calp0 * lamscale + salp0 * dlamscale) * (sig12 + eta12) +
    salp0 * lamscale * deta12
  { chi12 := chi, salp2 := salp2, calp2 := calp2, sig12 := sig12,
    ssig1 := ssig1, csig1 := csig1, ssig2 := ssig2, csig2 := csig2,
    u2 := mu * g.ep2, dchi12 := dchi }

/-- C `cbrt(x)`: the real (sign-preserving) cube root used by the
near-antipodal starting guess (source lines 230-245). -/
noncomputable def cbrtR (x : ℝ) : ℝ :=
  if x < 0 then -((-x) ^ ((1 : ℝ) / 3)) else x ^ ((1 : ℝ) / 3)

/-- The three-branch seed of the astroid refinement of the starting guess
(source lines 221-252): `(salp1, calp1)` before the local Newton loop. -/
noncomputable def astroidInit (x y : ℝ) : ℝ × ℝ :=
  if y = 0 then (1, 0)
  else if y > -0.027 ∧ x > -1.09 ∧ x < -0.91 then
    let a := (x + 1) / sq (cbrtR y)
    let a3 := sq a * a
    let disc := 27 - 8 * a3
    let v :=
      if disc ≥ 0 then
        let s0 := 4 * a3 - 27
        let s1 := s0 + (if s0 > 0 then 1 else -1) * 3 * Real.sqrt 3 * Real.sqrt disc
        let s2 := s1 / (4 * a3)
        let s3 := cbrtR s2
        1 + s3 + 1 / s3
      else
        let ang := atan2 (3 * Real.sqrt 3 * Real.sqrt (-disc)) (4 * a3 - 27) + 2 * π
        1 + 2 * Real.cos (ang / 3)
    let calp1 := cbrtR (-y) * -3 / a / v
    (Real.sqrt (1 - sq calp1), calp1)
  else (0, 1)

/-- The bounded local Newton loop of the astroid refinement (source lines
254-270): at most 30 iterations on `v(alp1) = calp1*(salp1+x) - y*salp1`;
the `v == 0` exit keeps the pre-update pair, the `|da| < tol1` exit the
updated one. -/
noncomputable def astroidGo (x y : ℝ) : ℕ → ℝ → ℝ → ℝ × ℝ
  | 0, salp1, calp1 => (salp1, calp1)
  | fuel + 1, salp1, calp1 =>
    let v := calp1 * (salp1 + x) - y * salp1
    let dv := -calp1 * y - salp1 * x + (calp1 - salp1) * (calp1 + salp1)
    let da := -v / dv
    let sda := Real.sin da
    let cda := Real.cos da
    let nsalp1 := salp1 * cda + calp1 * sda
    if v = 0 then (salp1, calp1)
    else
      let p := sinCosNorm (max 0 nsalp1) (max 0 (calp1 * cda - salp1 * sda))
      if |da| < tol1 then p
      else astroidGo x y fuel p.1 p.2

/-- The starting point for Newton's method in `Geodesic::Inverse` (source
lines 197-281): zeroth-order spherical estimate, or the near-antipodal
astroid refinement. -/
noncomputable def startPoint (g : Geodesic)
    (sbet1 cbet1 n1 sbet2 cbet2 sbet12 sbet12a chi12v cchi12 schi12 : ℝ) :
    ℝ × ℝ :=
  let csig12 := sbet1 * sbet2 + cbet1 * cbet2 * cchi12
  let salp1 := cbet2 * schi12
  let calp1 :=
    if cchi12 ≥ 0 then sbet12 * g.f1 / n1 + cbet2 * sbet1 * sq schi12 / (1 + cchi12)
    else sbet12a - cbet2 * sbet1 * sq schi12 / (1 - cchi12)
  let ssig12 := hypot salp1 calp1
  let chicrita := -cbet1 * dlamScale g.f (sq sbet1) * π
  if csig12 ≥ 0 ∨ ssig12 ≥ 3 * chicrita * cbet1 then sinCosNorm salp1 calp1
  else
    let x := (chi12v - π) / chicrita
    let y := sbet12a / (chicrita * cbet1)
    if y > -tol ∧ x > -1 - xthresh then
      let s := min 1 (-x)
      (s, -Real.sqrt (1 - sq s))
    else
      let i0 := astroidInit x y
      let p := astroidGo x y 30 i0.1 i0.2
      let r := hypot y (p.1 + x) * chicrita * p.1
      let schi := Real.sin r
      let cchi := -Real.cos r
      let salp := cbet2 * schi
      let calp := sbet12a - cbet2 * sbet1 * sq schi / (1 - cchi)
      sinCosNorm salp calp

/-- One step of the main Newton iteration of `Geodesic::Inverse` (source
lines 379-392): rotate `(salp1, calp1)` by `dalp1 = -v/dv` via angle
addition, clamp the sine component to `>= 0`, and renormalize. -/
noncomputable def newtonUpdate (salp1 calp1 v dv : ℝ) : ℝ × ℝ :=
  let dalp1 := -v / dv
  let sdalp1 := Real.sin dalp1
  let cdalp1 := Real.cos dalp1
  let nsalp1 := salp1 * cdalp1 + calp1 * sdalp1
  sinCosNorm (max 0 nsalp1) (calp1 * cdalp1 - salp1 * sdalp1)

/-- The state returned by the main Newton iteration: the final
`(salp1, calp1)`, the `Chi12` outputs of the last executed call, and the
number of loop bodies executed. -/
structure NewtonRes where
  salp1 : ℝ
  calp1 : ℝ
  out : Chi12Out
  count : ℕ

/-- The main Newton iteration of `Geodesic::Inverse` (source lines 367-394)
as a fuel-indexed recursion; the source runs `for (i = 0; i < 50; ++i)`,
i.e. `newtonGo ... 50 ...`.  Each body evaluates `Chi12`, breaks when
`|v| <= eps2` or the trip counter is already positive, and otherwise
applies `newtonUpdate` and increments the trip counter when `|v| < tol`.
When the fuel runs out the outputs of the last executed body are kept,
exactly as the source's `for` loop leaves its locals. -/
noncomputable def newtonGo (g : Geodesic) (sbet1 cbet1 sbet2 cbet2 chi12t : ℝ) :
    ℕ → ℝ → ℝ → ℕ → Chi12Out → NewtonRes
  | 0, salp1, calp1, _, o => { salp1 := salp1, calp1 := calp1, out := o, count := 0 }
  | fuel + 1, salp1, calp1, trip, _ =>
    let o := chi12F g sbet1 cbet1 sbet2 cbet2 salp1 calp1
    let v := o.chi12 - chi12t
    if |v| ≤ eps2 ∨ ¬trip < 1 then
      { salp1 := salp1, calp1 := calp1, out := o, count := 1 }
    else
      let p := newtonUpdate salp1 calp1 v o.dchi12
      let r := newtonGo g sbet1 cbet1 sbet2 cbet2 chi12t fuel p.1 p.2
        (trip + if |v| < tol then 1 else 0) o
      { r with count := r.count + 1 }

/-- The value `schi12` computed by `Geodesic::Inverse` (source line 159):
`sin(lon12 * degree)`, forced to exactly `0` when `lon12 == 180`. -/
noncomputable def meridSchi12 (lon12 : ℝ) : ℝ :=
  if lon12 = 180 then 0 else Real.sin (lon12 * degree)

/-- The guard of the meridional special case of `Geodesic::Inverse` (source
line 165): `schi12 == 0 || lat1 == -90`, on the canonicalized inputs. -/
def meridCond (lat1 lon12 : ℝ) : Prop := meridSchi12 lon12 = 0 ∨ lat1 = -90

noncomputable instance (a b : ℝ) : Decidable (meridCond a b) := by
  unfold meridCond
  infer_instance

/-- The outputs of the canonical-frame core of `Geodesic::Inverse` (source
lines 135-408): the distance and the azimuth sine/cosine pairs at the two
canonical points, before the symmetry transforms are undone. -/
structure CoreOut where
  s12 : ℝ
  salp1 : ℝ
  calp1 : ℝ
  salp2 : ℝ
  calp2 : ℝ

/-- The canonical-frame core of `Geodesic::Inverse` (source lines 135-408):
reduced-latitude setup, the meridional and equatorial special cases, and
otherwise the starting guess followed by the 50-iteration Newton loop and
the distance finalization. -/
noncomputable def inverseCore (g : Geodesic) (lat1 lat2 lon12 : ℝ) : CoreOut :=
  let phi1 := lat1 * degree
  let sbet1a := g.f1 * Real.sin phi1
  let cbet1a := if lat1 = -90 then eps2 else Real.cos phi1
  let n1 := hypot sbet1a cbet1a
  let sbet1 := sbet1a / n1
  let cbet1 := cbet1a / n1
  let phi2 := lat2 * degree
  let sbet2a := g.f1 * Real.sin phi2
  let cbet2a := if |lat2| = 90 then eps2 else Real.cos phi2
  let pb2 := sinCosNorm sbet2a cbet2a
  let sbet2 := pb2.1
  let cbet2 := pb2.2
  let sbet12 := sbet2 * cbet1 - cbet2 * sbet1
  let sbet12a := sbet2 * cbet1 + cbet2 * sbet1
  let chi12v := lon12 * degree
  let cchi12 := Real.cos chi12v
  let schi12 := meridSchi12 lon12
  if meridCond lat1 lon12 then
    let calp1 := cchi12
    let salp1 := schi12
    let salp2 := (0 : ℝ)
    let calp2 := (1 : ℝ)
    let q1 := sinCosNorm sbet1 (calp1 * cbet1)
    let q2 := sinCosNorm sbet2 (calp2 * cbet2)
    let sig12 := atan2 (max (q1.2 * q2.1 - q1.1 * q2.2) 0)
      (q1.2 * q2.2 + q1.1 * q2.1)
    let cl := tauCoeff g.ep2
    let s12 := g.b * tauScale g.ep2 *
      (sig12 + (sinSeries q2.1 q2.2 cl - sinSeries q1.1 q1.2 cl))
    { s12 := s12, salp1 := salp1, calp1 := calp1, salp2 := salp2, calp2 := calp2 }
  else if sbet1 = 0 ∧ chi12v ≤ π - g.f * π then
    { s12 := g.a * chi12v, salp1 := 1, calp1 := 0, salp2 := 1, calp2 := 0 }
  else
    let st := startPoint g sbet1 cbet1 n1 sbet2 cbet2 sbet12 sbet12a chi12v cchi12 schi12
    let nr := newtonGo g sbet1 cbet1 sbet2 cbet2 chi12v 50 st.1 st.2 0 zeroChi
    let o := nr.out
    let cl := tauCoeff o.u2
    let s12 := g.b * tauScale o.u2 *
      (o.sig12 + (sinSeries o.ssig2 o.csig2 cl - sinSeries o.ssig1 o.csig1 cl))
    { s12 := s12, salp1 := nr.salp1, calp1 := nr.calp1,
      salp2 := o.salp2, calp2 := o.calp2 }

/-- The canonical form produced by the input normalization of
`Geodesic::Inverse` (source lines 102-133): the canonical longitude
difference and latitudes, and the three sign trackers. -/
structure Canon where
  lon12 : ℝ
  lat1 : ℝ
  lat2 : ℝ
  lonsign : ℝ
  swapp : ℝ
  latsign : ℝ

/-- The sign bookkeeping of the canonicalization phase (source lines
108-122), applied to the already rounded longitude difference `lon12r`
and rounded latitudes `lat1r`, `lat2r`: make the longitude difference
positive, swap so that the point of larger absolute latitude is first, and
flip signs so that the first latitude is nonpositive. -/
noncomputable def canonCore (lon12r lat1r lat2r : ℝ) : Canon :=
  let lonsign0 : ℝ := if lon12r ≥ 0 then 1 else -1
  let lon12 := lonsign0 * lon12r
  let swapp : ℝ := if |lat1r| ≥ |lat2r| then 1 else -1
  let lonsign := if swapp < 0 then -lonsign0 else lonsign0
  let l1 := if swapp < 0 then lat2r else lat1r
  let l2 := if swapp < 0 then lat1r else lat2r
  let latsign : ℝ := if l1 < 0 then 1 else -1
  { lon12 := lon12, lat1 := latsign * l1, lat2 := latsign * l2,
    lonsign := lonsign, swapp := swapp, latsign := latsign }

/-- The canonicalization phase of `Geodesic::Inverse` (source lines
102-133): longitude normalization and rounding, latitude rounding, then
the sign bookkeeping of `canonCore`. -/
noncomputable def canonicalize (lat1 lon1 lat2 lon2 : ℝ) : Canon :=
  canonCore (angRound (angNormalize (angNormalize lon2 - angNormalize lon1)))
    (angRound lat1) (angRound lat2)

/-- The outputs of `Geodesic::Inverse` (source lines 95-97). -/
structure InverseOut where
  s12 : ℝ
  azi1 : ℝ
  azi2 : ℝ

/-- `Geodesic::Inverse(lat1, lon1, lat2, lon2)` (source lines 95-424):
canonicalize, run the canonical-frame core, undo the point swap, and map
the azimuth pairs through the sign trackers.  The `atan2` calls receive a
first argument of the form `-(sign product * sine)` whose IEEE zero sign
is tracked by `atan2z`; the leading `0 -` of the source additionally
collapses an IEEE `-0` result to `+0` (a no-op in exact arithmetic). -/
noncomputable def inverse (g : Geodesic) (lat1 lon1 lat2 lon2 : ℝ) : InverseOut :=
  let c := canonicalize lat1 lon1 lat2 lon2
  let o := inverseCore g c.lat1 c.lat2 c.lon12
  let salp1 := if c.swapp < 0 then o.salp2 else o.salp1
  let calp1 := if c.swapp < 0 then o.calp2 else o.calp1
  let salp2 := if c.swapp < 0 then o.salp1 else o.salp2
  let calp2 := if c.swapp < 0 then o.calp1 else o.calp2
  { s12 := o.s12
    azi1 := 0 - atan2z (c.swapp * c.lonsign) salp1
      (c.swapp * c.latsign * calp1) / degree
    azi2 := 0 - atan2z (azi2sense * c.swapp * c.lonsign) salp2
      (azi2sense * c.swapp * c.latsign * calp2) / degree }

/-- Modelled from the spec: the error kinds of §7 (`DomainError` for
nonfinite or out-of-range inputs, `ConvergenceError(lat1, lon1, lat2, lon2)`
for a Newton iteration that exhausts its cap). -/
inductive GeoError where
  | domainError : GeoError
  | convergenceError (lat1 lon1 lat2 lon2 : ℝ) : GeoError

/-- `Geodesic::Inverse` with its error behaviour made explicit: the C++
function is declared `throw()` (source line 97), performs no validity
checks on its inputs, and has no failure exit from the Newton loop (source
lines 370-394), so every call returns a numeric result. -/
noncomputable def inverseChecked (g : Geodesic) (lat1 lon1 lat2 lon2 : ℝ) :
    Except GeoError InverseOut :=
  Except.ok (inverse g lat1 lon1 lat2 lon2)

/-- The fields of `GeographicLib::GeodesicLine` read by
`GeodesicLine::Position` (source lines 628-669); `_sScale == 0` marks a
default-constructed, uninitialized line. -/
structure GeodesicLineS where
  lat1 : ℝ
  lon1 : ℝ
  azi1 : ℝ
  bsign : ℝ
  f1 : ℝ
  salp0 : ℝ
  calp0 : ℝ
  ssig1 : ℝ
  csig1 : ℝ
  slam1 : ℝ
  clam1 : ℝ
  sScale : ℝ
  sigCoeffL : List ℝ
  dtau1 : ℝ
  stau1 : ℝ
  ctau1 : ℝ
  dlamScaleF : ℝ
  dlamCoeffL : List ℝ
  dchi1 : ℝ

/-- `GeodesicLine::Position(s12, lat2, lon2, azi2)` (source lines 628-670).
The three trailing arguments are the values of the C++ by-reference output
parameters at entry; an uninitialized line (`_sScale == 0`) returns without
touching them. -/
noncomputable def position (l : GeodesicLineS) (s12 lat2 lon2 azi2 : ℝ) :
    ℝ × ℝ × ℝ :=
  if l.sScale = 0 then (lat2, lon2, azi2)
  else
    let tau12 := s12 / l.sScale
    let s := Real.sin tau12
    let c := Real.cos tau12
    let sig12 := tau12 + (l.dtau1 +
      sinSeries (l.stau1 * c + l.ctau1 * s) (l.ctau1 * c - l.stau1 * s) l.sigCoeffL)
    let s2 := Real.sin sig12
    let c2 := Real.cos sig12
    let ssig2 := l.ssig1 * c2 + l.csig1 * s2
    let csig2 := l.csig1 * c2 - l.ssig1 * s2
    let sbet2 := l.calp0 * ssig2
    let cbet2 := hypot l.salp0 (l.calp0 * csig2)
    let slam2 := l.salp0 * ssig2
    let clam2 := csig2
    let salp2 := l.salp0
    let calp2 := l.calp0 * csig2
    let lam12 := atan2 (slam2 * l.clam1 - clam2 * l.slam1)
      (clam2 * l.clam1 + slam2 * l.slam1)
    let chi12 := lam12 + l.dlamScaleF *
      (sig12 + (sinSeries ssig2 csig2 l.dlamCoeffL - l.dchi1))
    let lon12 := l.bsign * chi12 / degree
    let lon12n := lon12 - 360 * ⌊lon12 / 360 + 1 / 2⌋
    let lat2n := atan2 sbet2 (l.f1 * cbet2) / degree
    let lon2n := angNormalize (l.lon1 + lon12n)
    let azi2n := 0 - atan2z (azi2sense * l.bsign) salp2 (azi2sense * calp2) / degree
    (lat2n, lon2n, azi2n)

/-- `GeodesicLine::GeodesicLine(g, lat1, lon1, azi1)` (source lines
546-626): normalize the azimuth (with the special pole conventions at
latitude 90 or -90), split off its sign into `_bsign`, build the azimuth and
reduced-latitude sine/cosine pairs, and precompute the series state read
by `Position`. -/
noncomputable def geodesicLine (g : Geodesic) (lat1 lon1 azi1 : ℝ) : GeodesicLineS :=
  let azi1a := angNormalize azi1
  let lon1a := if lat1 = 90 then lon1 - (azi1a - (if azi1a ≥ 0 then 180 else -180))
    else if lat1 = -90 then lon1 + azi1a else lon1
  let azi1b := if lat1 = 90 then (-180 : ℝ) else if lat1 = -90 then 0 else azi1a
  let azi1c := angRound azi1b
  let lon1b := angNormalize lon1a
  let bsign : ℝ := if azi1c ≥ 0 then 1 else -1
  let azi1d := bsign * azi1c
  let alp1 := azi1d * degree
  let salp1 := if azi1d = 180 then 0 else Real.sin alp1
  let calp1 := if azi1d = 90 then 0 else Real.cos alp1
  let phi := lat1 * degree
  let sbet1a := g.f1 * Real.sin phi
  let cbet1a := if |lat1| = 90 then eps2 else Real.cos phi
  let pb := sinCosNorm sbet1a cbet1a
  let sbet1 := pb.1
  let cbet1 := pb.2
  let salp0 := salp1 * cbet1
  let calp0 := hypot calp1 (salp1 * sbet1)
  let cboth := if sbet1 ≠ 0 ∨ calp1 ≠ 0 then cbet1 * calp1 else 1
  let ps := sinCosNorm sbet1 cboth
  let pl := sinCosNorm (salp0 * sbet1) cboth
  let mu := sq calp0
  let u2 := mu * g.ep2
  let dtau1 := sinSeries ps.1 ps.2 (tauCoeff u2)
  let s := Real.sin dtau1
  let c := Real.cos dtau1
  { lat1 := lat1, lon1 := lon1b, azi1 := azi1d, bsign := bsign, f1 := g.f1,
    salp0 := salp0, calp0 := calp0, ssig1 := ps.1, csig1 := ps.2,
    slam1 := pl.1, clam1 := pl.2, sScale := g.b * tauScale u2,
    sigCoeffL := sigCoeff u2, dtau1 := dtau1,
    stau1 := ps.1 * c + ps.2 * s, ctau1 := ps.2 * c - ps.1 * s,
    dlamScaleF := salp0 * dlamScale g.f mu,
    dlamCoeffL := dlamCoeff g.f mu,
    dchi1 := sinSeries ps.1 ps.2 (dlamCoeff g.f mu) }

/-- `Geodesic::Direct(lat1, lon1, azi1, s12)` (source lines 88-93):
construct the `GeodesicLine` and evaluate `Position` at `s12`.  The
by-reference outputs are uninitialized at the call, and a constructed line
overwrites them (its `_sScale = b * tauScale(u2)` is nonzero); the model
passes zeros for their entry values. -/
noncomputable def direct (g : Geodesic) (lat1 lon1 azi1 s12 : ℝ) : ℝ × ℝ × ℝ :=
  position (geodesicLine g lat1 lon1 azi1) s12 0 0 0

/-- The C1 round-trip property on the WGS84 ellipsoid, stated over the
embedded `direct` and `inverse`: for `|lat1| <= 90`, feeding the point and
azimuth returned by `Direct(lat1, lon1, azi1, s12)` back into `Inverse`
reproduces the distance within 1 micrometre and both azimuths within
`1e-12` degree (azimuths compared modulo 360). -/
def directInverseRoundTrip : Prop :=
  ∀ lat1 lon1 azi1 s12 : ℝ, |lat1| ≤ 90 →
    |(inverse wgs84 lat1 lon1 (direct wgs84 lat1 lon1 azi1 s12).1
        (direct wgs84 lat1 lon1 azi1 s12).2.1).s12 - s12| ≤ 1 / 1000000 ∧
    (∃ j : ℤ, |(inverse wgs84 lat1 lon1 (direct wgs84 lat1 lon1 azi1 s12).1
        (direct wgs84 lat1 lon1 azi1 s12).2.1).azi1 - azi1 - 360 * j|
      ≤ 1 / 10 ^ 12) ∧
    (∃ j : ℤ, |(inverse wgs84 lat1 lon1 (direct wgs84 lat1 lon1 azi1 s12).1
        (direct wgs84 lat1 lon1 azi1 s12).2.1).azi2
          - (direct wgs84 lat1 lon1 azi1 s12).2.2 - 360 * j| ≤ 1 / 10 ^ 12)

/-- Statement abbreviation: an azimuth lies in the closed interval
`[-180, 180]` of degrees. -/
def aziOK (a : ℝ) : Prop := -180 ≤ a ∧ a ≤ 180

/-- A concrete all-zero (default-constructed) line state. -/
def lineZero : GeodesicLineS :=
  ⟨0, 0, 0, 0, 0, 0, 0, 0, 0, 0, 0, 0, [], 0, 0, 0, 0, [], 0⟩

/-- Witness for C3's initialized-line hypothesis: a line with `sScale = 1`. -/
def lineOne : GeodesicLineS :=
  ⟨0, 0, 0, 0, 0, 0, 0, 0, 0, 0, 0, 1, [], 0, 0, 0, 0, [], 0⟩

/-- The canonicalization invariant of C6 stated on the inputs of
`Geodesic::Inverse`: ranges of the canonical coordinates, the sign trackers
being signs, and the reconstruction equations recording the applied
transformation. -/
def canonInvariant (lat1 lon1 lat2 lon2 : ℝ) : Prop :=
  0 ≤ (canonicalize lat1 lon1 lat2 lon2).lon12 ∧
    (canonicalize lat1 lon1 lat2 lon2).lon12 ≤ 180 ∧
    -90 ≤ (canonicalize lat1 lon1 lat2 lon2).lat1 ∧
    (canonicalize lat1 lon1 lat2 lon2).lat1 ≤ 0 ∧
    (canonicalize lat1 lon1 lat2 lon2).lat1 ≤ (canonicalize lat1 lon1 lat2 lon2).lat2 ∧
    (canonicalize lat1 lon1 lat2 lon2).lat2 ≤ -(canonicalize lat1 lon1 lat2 lon2).lat1 ∧
    ((canonicalize lat1 lon1 lat2 lon2).lonsign = 1 ∨
      (canonicalize lat1 lon1 lat2 lon2).lonsign = -1) ∧
    ((canonicalize lat1 lon1 lat2 lon2).swapp = 1 ∨
      (canonicalize lat1 lon1 lat2 lon2).swapp = -1) ∧
    ((canonicalize lat1 lon1 lat2 lon2).latsign = 1 ∨
      (canonicalize lat1 lon1 lat2 lon2).latsign = -1) ∧
    (canonicalize lat1 lon1 lat2 lon2).swapp * (canonicalize lat1 lon1 lat2 lon2).lonsign *
        (canonicalize lat1 lon1 lat2 lon2).lon12
      = angRound (angNormalize (angNormalize lon2 - angNormalize lon1)) ∧
    (canonicalize lat1 lon1 lat2 lon2).latsign * (canonicalize lat1 lon1 lat2 lon2).lat1
      = (if (canonicalize lat1 lon1 lat2 lon2).swapp = 1 then angRound lat1 else angRound lat2) ∧
    (canonicalize lat1 lon1 lat2 lon2).latsign * (canonicalize lat1 lon1 lat2 lon2).lat2
      = (if (canonicalize lat1 lon1 lat2 lon2).swapp = 1 then angRound lat2 else angRound lat1)

theorem angNormalize_mem (x : ℝ) : -180 < angNormalize x ∧ angNormalize x ≤ 180 := by
  unfold angNormalize
  have h1 : ((⌈(x - 180) / 360⌉ : ℝ)) < (x - 180) / 360 + 1 := Int.ceil_lt_add_one _
  have h2 : (x - 180) / 360 ≤ (⌈(x - 180) / 360⌉ : ℝ) := Int.le_ceil _
  constructor <;> nlinarith

theorem angNormalize_sub_int (x : ℝ) : ∃ k : ℤ, x - angNormalize x = 360 * k :=
  ⟨⌈(x - 180) / 360⌉, by unfold angNormalize; ring⟩

theorem range_unique {a b : ℝ} (ha : -180 < a ∧ a ≤ 180) (hb : -180 < b ∧ b ≤ 180)
    (h : ∃ k : ℤ, a - b = 360 * k) : a = b := by
  obtain ⟨k, hk⟩ := h
  have hk1 : |(k : ℝ)| < 1 := by
    rw [abs_lt]
    constructor <;> nlinarith
  have : k = 0 := by
    have h2 : |k| < 1 := by exact_mod_cast hk1
    exact Int.abs_lt_one_iff.mp h2
  subst this
  push_cast at hk
  linarith

theorem angNormalize_eq_self {x : ℝ} (h1 : -180 < x) (h2 : x ≤ 180) :
    angNormalize x = x := by
  refine range_unique (angNormalize_mem x) ⟨h1, h2⟩ ?_
  obtain ⟨k, hk⟩ := angNormalize_sub_int x
  exact ⟨-k, by push_cast; linarith⟩

theorem abs_angRound_le (x : ℝ) : |angRound x| ≤ |x| := by
  unfold angRound
  split
  · simp [abs_nonneg x]
  · exact le_refl _

theorem angRound_eq_self {x : ℝ} (h : angRoundEps ≤ |x|) : angRound x = x := by
  unfold angRound
  rw [if_neg (not_lt.mpr h)]

theorem angRound_zero : angRound 0 = 0 := by
  unfold angRound
  split <;> simp

theorem clenshaw_linear (t : ℝ) :
    ∀ (l : List ℝ) (f : ℕ → ℝ), (∀ i, f (i + 2) = 2 * t * f (i + 1) - f i) →
      (clenshawPair (2 * t) l).1 * f 1 - (clenshawPair (2 * t) l).2 * f 0
        = ∑ i in Finset.range l.length, l.getD i 0 * f (i + 1)
  | [], f, _ => by simp [clenshawPair]
  | c0 :: rest, f, hf => by
    have ih := clenshaw_linear t rest (fun i => f (i + 1)) (fun i => hf (i + 1))
    simp only [clenshawPair, List.length_cons]
    rw [Finset.sum_range_succ']
    simp only [List.getD_cons_succ, List.getD_cons_zero] at *
    have h2 := hf 0
    norm_num at ih h2 ⊢
    linear_combination ih - (clenshawPair (2 * t) rest).1 * h2

theorem eps2_pos : 0 < eps2 := Real.sqrt_pos.mpr (by positivity)

theorem atan2_mem_Ioc (y x : ℝ) : -π < atan2 y x ∧ atan2 y x ≤ π :=
  ⟨Complex.neg_pi_lt_arg _, Complex.arg_le_pi _⟩

theorem atan2z_mem (s salp x : ℝ) : -π ≤ atan2z s salp x ∧ atan2z s salp x ≤ π := by
  unfold atan2z
  split
  · split
    · constructor <;> linarith [Real.pi_pos]
    · constructor <;> linarith [Real.pi_pos]
  · obtain ⟨h1, h2⟩ := atan2_mem_Ioc (-(s * salp)) x
    exact ⟨le_of_lt h1, h2⟩

/-- The range of each azimuth the source returns: every returned azimuth
has the form `0 - atan2z(..)/degree`, which lies in `[-180, 180]`. -/
theorem aziZ_range (s salp x : ℝ) :
    -180 ≤ 0 - atan2z s salp x / degree ∧ 0 - atan2z s salp x / degree ≤ 180 := by
  obtain ⟨h1, h2⟩ := atan2z_mem s salp x
  have hdp : (0 : ℝ) < degree := by unfold degree; positivity
  have h180 : 180 * degree = π := by unfold degree; ring
  constructor
  · have hle : atan2z s salp x / degree ≤ 180 := (div_le_iff₀ hdp).mpr (by rw [h180]; exact h2)
    linarith
  · have hge : -180 ≤ atan2z s salp x / degree := by
      rw [le_div_iff₀ hdp, show (-180 : ℝ) * degree = -π by unfold degree; ring]
      exact h1
    linarith

/-! ### Claim C7 -/

/-- C7: `SinSeries(sin x, cos x, c, n)` equals
`sum(c[k-1] * sin(2 k x), k = 1..n)` in exact real arithmetic, computed by
the Clenshaw recursion; the coefficient list supplies the `n >= 1` leading
coefficients (`n >= 1` mirrored by the nonemptiness precondition). -/
theorem sinSeries_clenshaw (x : ℝ) (c : List ℝ) (_hc : c ≠ []) :
    sinSeries (Real.sin x) (Real.cos x) c
      = ∑ i in Finset.range c.length, c.getD i 0 * Real.sin (2 * ((i : ℝ) + 1) * x) := by
  clear _hc
  have key := clenshaw_linear (Real.cos (2 * x)) c (fun i => Real.sin (2 * (i : ℝ) * x))
    (by
      intro i
      push_cast
      have e1 : (2 : ℝ) * ((i : ℝ) + 2) * x = 2 * ((i : ℝ) + 1) * x + 2 * x := by ring
      have e2 : (2 : ℝ) * (i : ℝ) * x = 2 * ((i : ℝ) + 1) * x - 2 * x := by ring
      rw [e1, e2, Real.sin_add, Real.sin_sub]
      ring)
  push_cast at key
  simp only [mul_one, mul_zero, zero_mul, Real.sin_zero, sub_zero] at key
  have har : 2 * (sq (Real.cos x) - sq (Real.sin x)) = 2 * Real.cos (2 * x) := by
    unfold sq
    rw [Real.cos_two_mul']
    ring
  unfold sinSeries
  rw [har]
  rw [show (2 : ℝ) * Real.sin x * Real.cos x = Real.sin (2 * x) from (Real.sin_two_mul x).symm]
  linear_combination key

/-- Witness for C7 at `x = 0`, `c = [1, 2]`. -/
theorem sinSeries_clenshaw_witness :
    ([1, 2] : List ℝ) ≠ [] ∧
      sinSeries (Real.sin 0) (Real.cos 0) [1, 2]
        = ∑ i in Finset.range ([1, 2] : List ℝ).length,
            ([1, 2] : List ℝ).getD i 0 * Real.sin (2 * ((i : ℝ) + 1) * 0) :=
  ⟨by simp, sinSeries_clenshaw 0 [1, 2] (by simp)⟩

/-! ### Claim C9 -/

/-- C9: a `GeodesicLine` with `_sScale == 0` (the default-constructed,
uninitialized state) makes `Position` return immediately, leaving the three
output arguments exactly as passed in, for every line state and distance:
no field other than `_sScale` influences the result. -/
theorem position_uninit (l : GeodesicLineS) (s12 lat2 lon2 azi2 : ℝ)
    (h : l.sScale = 0) : position l s12 lat2 lon2 azi2 = (lat2, lon2, azi2) := by
  unfold position
  rw [if_pos h]

/-- Witness for C9 at the all-zero line and outputs `(1, 2, 3)`. -/
theorem position_uninit_witness :
    lineZero.sScale = 0 ∧ position lineZero 5 1 2 3 = (1, 2, 3) :=
  ⟨rfl, position_uninit lineZero 5 1 2 3 rfl⟩

/-! ### Claim C10 -/

/-- C10: at entry to `Chi12`, the degenerate equatorial heading
`sbet1 == 0 && calp1 == 0` has `calp1` replaced by `-eps2` before any use,
and consequently `calp0 = hypot(calp1, salp1 * sbet1)` is strictly positive
in every call whose azimuth pair is normalized, so the divisions by `calp0`
in the derivative computation never divide by zero. -/
theorem chi12_calp0_pos (sbet1 salp1 calp1 : ℝ) (h : salp1 ^ 2 + calp1 ^ 2 = 1) :
    (sbet1 = 0 ∧ calp1 = 0 → chi12Guard sbet1 calp1 = -eps2) ∧
      0 < chi12Calp0 sbet1 salp1 calp1 := by
  constructor
  · intro hg
    unfold chi12Guard
    rw [if_pos hg]
  · unfold chi12Calp0 hypot
    apply Real.sqrt_pos.mpr
    by_cases hg : sbet1 = 0 ∧ calp1 = 0
    · unfold chi12Guard
      rw [if_pos hg]
      have he := eps2_pos
      nlinarith [sq_nonneg (salp1 * sbet1)]
    · unfold chi12Guard
      rw [if_neg hg]
      by_cases hc : calp1 = 0
      · have hs : sbet1 ≠ 0 := fun hs => hg ⟨hs, hc⟩
        have h1 : salp1 ^ 2 = 1 := by
          rw [hc] at h
          simpa using h
        have h2 : 0 < sbet1 ^ 2 := by positivity
        nlinarith
      · have h2 : 0 < calp1 ^ 2 := by positivity
        nlinarith [sq_nonneg (salp1 * sbet1)]

/-- Witness for C10 at the guarded corner `sbet1 = 0`, `(salp1, calp1) = (1, 0)`. -/
theorem chi12_calp0_pos_witness :
    (1 : ℝ) ^ 2 + (0 : ℝ) ^ 2 = 1 ∧
      (((0 : ℝ) = 0 ∧ (0 : ℝ) = 0 → chi12Guard 0 0 = -eps2) ∧ 0 < chi12Calp0 0 1 0) :=
  ⟨by norm_num, chi12_calp0_pos 0 1 0 (by norm_num)⟩

/-! ### Claim C2 -/

/-- C2 (amended): `Geodesic::Inverse` signals no errors at all.  It is
declared no-throw and performs no input validation; every call, including
those with out-of-range latitudes and those on which the Newton loop
reaches its 50-iteration cap, returns a numeric result. -/
theorem inverse_never_errors (g : Geodesic) (lat1 lon1 lat2 lon2 : ℝ) :
    inverseChecked g lat1 lon1 lat2 lon2 = Except.ok (inverse g lat1 lon1 lat2 lon2) ∧
      ∀ e : GeoError, inverseChecked g lat1 lon1 lat2 lon2 ≠ Except.error e :=
  ⟨rfl, fun e h => by simp [inverseChecked] at h⟩

/-- Counterexample to C2 as stated: the out-of-range latitude 100 does not
signal `DomainError`; `Inverse` returns a numeric result. -/
theorem inverse_out_of_range_returns :
    inverseChecked wgs84 100 0 10 20 = Except.ok (inverse wgs84 100 0 10 20) := rfl

/-! ### Claim C3 -/

/-- C3 (amended): every azimuth returned by `Geodesic::Inverse`, and the
azimuth returned by `GeodesicLine::Position` on an initialized line, lies
in the closed interval `[-180, 180]` of degrees.  Both endpoints occur:
each azimuth is `0 - atan2(-(sign * sine), x) / degree` with the sine
nonnegative, and when the sine is an IEEE zero and `x < 0` the result is
`+180` for `sign > 0` (`atan2(-0, x) = -pi`) and `-180` for `sign < 0`
(`atan2(+0, x) = +pi`); the leading `0 -` normalizes a `-0` result to
`+0`. -/
theorem azimuth_range :
    (∀ (g : Geodesic) (lat1 lon1 lat2 lon2 : ℝ),
        aziOK (inverse g lat1 lon1 lat2 lon2).azi1 ∧
        aziOK (inverse g lat1 lon1 lat2 lon2).azi2) ∧
      ∀ (l : GeodesicLineS) (s12 lat2 lon2 azi2 : ℝ), l.sScale ≠ 0 →
        aziOK (position l s12 lat2 lon2 azi2).2.2 := by
  constructor
  · intro g lat1 lon1 lat2 lon2
    exact ⟨aziZ_range _ _ _, aziZ_range _ _ _⟩
  · intro l s12 lat2 lon2 azi2 h
    unfold position
    rw [if_neg h]
    exact aziZ_range _ _ _

/-- Witness for C3 at the line `lineOne` and `s12 = 0`. -/
theorem azimuth_range_witness :
    lineOne.sScale ≠ 0 ∧ aziOK (position lineOne 0 0 0 0).2.2 :=
  ⟨by norm_num [lineOne], azimuth_range.2 lineOne 0 0 0 0 (by norm_num [lineOne])⟩

theorem angNormalize_zero : angNormalize 0 = 0 :=
  angNormalize_eq_self (by norm_num) (by norm_num)

theorem angNormalize_180 : angNormalize 180 = 180 :=
  angNormalize_eq_self (by norm_num) (by norm_num)

theorem angRoundEps_lt_one : angRoundEps < 1 := by
  unfold angRoundEps
  norm_num

theorem angRound_of_one_le {x : ℝ} (h : 1 ≤ |x|) : angRound x = x :=
  angRound_eq_self (le_trans (le_of_lt angRoundEps_lt_one) h)

theorem canon_3020 : canonicalize 30 0 20 0 = ⟨0, -30, -20, 1, 1, -1⟩ := by
  unfold canonicalize canonCore
  norm_num [angNormalize_zero, angRound_zero, angRound_of_one_le]

theorem meridSchi12_zero : meridSchi12 0 = 0 := by
  unfold meridSchi12 degree
  norm_num

theorem meridSchi12_180 : meridSchi12 180 = 0 := by
  unfold meridSchi12
  norm_num

/-- The meridional branch of the inverse core: the azimuth pair values it
assigns (source lines 165-185). -/
theorem inverseCore_merid (g : Geodesic) (lat1 lat2 lon12 : ℝ)
    (h : meridCond lat1 lon12) :
    (inverseCore g lat1 lat2 lon12).salp1 = meridSchi12 lon12 ∧
      (inverseCore g lat1 lat2 lon12).calp1 = Real.cos (lon12 * degree) ∧
      (inverseCore g lat1 lat2 lon12).salp2 = 0 ∧
      (inverseCore g lat1 lat2 lon12).calp2 = 1 := by
  unfold inverseCore
  rw [if_pos h]
  exact ⟨rfl, rfl, rfl, rfl⟩

theorem pi_div_degree : π / degree = 180 := by
  unfold degree
  field_simp

theorem atan2z_zero_neg_of_pos {s x : ℝ} (hx : x < 0) (hs : 0 < s) :
    atan2z s 0 x = -π := by
  unfold atan2z
  rw [if_pos ⟨rfl, hx⟩, if_pos hs]

theorem atan2z_zero_neg_of_nonpos {s x : ℝ} (hx : x < 0) (hs : ¬0 < s) :
    atan2z s 0 x = π := by
  unfold atan2z
  rw [if_pos ⟨rfl, hx⟩, if_neg hs]

/-- A zero sine with a negative cosine side and positive sign product gives
the boundary azimuth `+180` (`atan2(-0, x < 0) = -pi`). -/
theorem aziZ_zero_neg_of_pos {s x : ℝ} (hx : x < 0) (hs : 0 < s) :
    0 - atan2z s 0 x / degree = 180 := by
  rw [atan2z_zero_neg_of_pos hx hs,
    show (0 : ℝ) - -π / degree = π / degree by ring, pi_div_degree]

/-- A zero sine with a negative cosine side and negative sign product gives
the boundary azimuth `-180` (`atan2(+0, x < 0) = +pi`). -/
theorem aziZ_zero_neg_of_nonpos {s x : ℝ} (hx : x < 0) (hs : ¬0 < s) :
    0 - atan2z s 0 x / degree = -180 := by
  rw [atan2z_zero_neg_of_nonpos hx hs,
    show (0 : ℝ) - π / degree = -(π / degree) by ring, pi_div_degree]

/-- The positive boundary value is attained: `Inverse(30, 0, 20, 0)` (due
south along a meridian, no swap, `lonsign = 1`) returns `azi1 = +180`. -/
theorem inverse_azi1_pos180 : (inverse wgs84 30 0 20 0).azi1 = 180 := by
  have hm : meridCond (-30 : ℝ) 0 := Or.inl meridSchi12_zero
  obtain ⟨hs1, hc1, _, _⟩ := inverseCore_merid wgs84 (-30) (-20) 0 hm
  have hv2 : Real.cos ((0 : ℝ) * degree) = 1 := by norm_num
  unfold inverse
  rw [canon_3020]
  dsimp only
  rw [hs1, meridSchi12_zero, hc1, hv2]
  simp only [if_neg (show ¬((1 : ℝ) < 0) by norm_num)]
  exact aziZ_zero_neg_of_pos (by norm_num) (by norm_num)

theorem canon_pole : canonicalize 90 0 10 (-40) = ⟨40, -90, -10, -1, 1, -1⟩ := by
  have h1 : angNormalize (-40 : ℝ) = -40 := angNormalize_eq_self (by norm_num) (by norm_num)
  unfold canonicalize canonCore
  norm_num [h1, angNormalize_zero, angRound_of_one_le]

/-- Counterexample to C3 as stated: `Inverse(90, 0, 10, -40)` (due south
from the north pole, raw longitude difference negative so `lonsign = -1`)
returns `azi2 = -180`, which is outside `(-180, 180]`: the second azimuth
sine is the literal `+0` of the meridional branch, the sign product
`swapp * lonsign` is `-1`, so the source calls `atan2(+0, -1) = +pi`. -/
theorem inverse_azi2_neg180 : (inverse wgs84 90 0 10 (-40)).azi2 = -180 := by
  have hm : meridCond (-90 : ℝ) 40 := Or.inr rfl
  obtain ⟨-, -, h3, h4⟩ := inverseCore_merid wgs84 (-90) (-10) 40 hm
  unfold inverse
  rw [canon_pole]
  dsimp only
  rw [h3, h4]
  simp only [if_neg (show ¬((1 : ℝ) < 0) by norm_num)]
  exact aziZ_zero_neg_of_nonpos (by norm_num [azi2sense]) (by norm_num [azi2sense])

theorem angRound_mem {x : ℝ} (h1 : -180 < x) (h2 : x ≤ 180) :
    -180 < angRound x ∧ angRound x ≤ 180 := by
  unfold angRound
  split
  · norm_num
  · exact ⟨h1, h2⟩

/-- The canonical longitude difference lies in `[0, 180]` for every input
(source comment at lines 123-127). -/
theorem canonical_lon_range (lat1 lon1 lat2 lon2 : ℝ) :
    0 ≤ (canonicalize lat1 lon1 lat2 lon2).lon12 ∧
      (canonicalize lat1 lon1 lat2 lon2).lon12 ≤ 180 := by
  unfold canonicalize canonCore
  dsimp only
  obtain ⟨h1, h2⟩ := angNormalize_mem (angNormalize lon2 - angNormalize lon1)
  obtain ⟨h3, h4⟩ := angRound_mem h1 h2
  split
  · rename_i hd
    constructor <;> nlinarith
  · rename_i hd
    push_neg at hd
    constructor <;> nlinarith

theorem sin_eq_zero_deg {L : ℝ} (h0 : 0 ≤ L) (h180 : L < 180)
    (hs : Real.sin (L * degree) = 0) : L = 0 := by
  obtain ⟨n, hn⟩ := Real.sin_eq_zero_iff.mp hs
  have hπ : (0 : ℝ) < π := Real.pi_pos
  have hL : L * degree = L / 180 * π := by
    unfold degree
    ring
  rw [hL] at hn
  have hn' : (n : ℝ) = L / 180 := mul_right_cancel₀ (ne_of_gt hπ) hn
  have hn0 : (0 : ℝ) ≤ (n : ℝ) := by
    rw [hn']
    positivity
  have hn1 : (n : ℝ) < 1 := by
    rw [hn']
    exact (div_lt_one (by norm_num)).mpr h180
  have hz : n = 0 := by
    have ha : (0 : ℤ) ≤ n := by exact_mod_cast hn0
    have hb : n < (1 : ℤ) := by exact_mod_cast hn1
    omega
  rw [hz] at hn'
  have : L / 180 = 0 := by exact_mod_cast hn'.symm
  nlinarith [this]

/-! ### Claim C4 -/

/-- C4 (amended): `Geodesic::Inverse` takes the meridional special-case
branch (which sets `salp1 = schi12`, `calp1 = cchi12`, `salp2 = 0`,
`calp2 = 1` and computes `s12` from the meridional tau series with
`u2 = ep2`) exactly when the canonical longitude difference is 0 **or
180**, or the canonical first latitude is -90, and for no other input. -/
theorem merid_branch_iff (lat1 lon1 lat2 lon2 : ℝ) :
    meridCond (canonicalize lat1 lon1 lat2 lon2).lat1
        (canonicalize lat1 lon1 lat2 lon2).lon12 ↔
      ((canonicalize lat1 lon1 lat2 lon2).lon12 = 0 ∨
        (canonicalize lat1 lon1 lat2 lon2).lon12 = 180 ∨
        (canonicalize lat1 lon1 lat2 lon2).lat1 = -90) := by
  obtain ⟨hL0, hL180⟩ := canonical_lon_range lat1 lon1 lat2 lon2
  unfold meridCond meridSchi12
  by_cases hL : (canonicalize lat1 lon1 lat2 lon2).lon12 = 180
  · simp [hL]
  · rw [if_neg hL]
    constructor
    · rintro (hs | hA)
      · exact Or.inl (sin_eq_zero_deg hL0 (lt_of_le_of_ne hL180 hL) hs)
      · exact Or.inr (Or.inr hA)
    · rintro (h0 | h180 | hA)
      · rw [h0]
        norm_num
      · exact absurd h180 hL
      · exact Or.inr hA

theorem canon_m30_180 : canonicalize (-30) 0 20 180 = ⟨180, -30, 20, 1, 1, 1⟩ := by
  unfold canonicalize canonCore
  norm_num [angNormalize_zero, angNormalize_180, angRound_of_one_le]

/-- Counterexample to C4 as stated: the input `(-30, 0, 20, 180)` has
canonical longitude difference 180 (not 0) and canonical first latitude
-30 (not -90), yet the code takes the meridional branch, because
`schi12` is forced to 0 when `lon12 == 180`. -/
theorem merid_branch_at_180 :
    meridCond (canonicalize (-30) 0 20 180).lat1 (canonicalize (-30) 0 20 180).lon12 ∧
      ¬((canonicalize (-30) 0 20 180).lon12 = 0 ∨
        (canonicalize (-30) 0 20 180).lat1 = -90) := by
  rw [canon_m30_180]
  constructor
  · exact Or.inl meridSchi12_180
  · norm_num

/-- The canonicalization invariant of C6, on the canonical structure built
from a rounded longitude difference `d` and rounded latitudes `r1`, `r2`:
ranges of the canonical coordinates, the sign trackers being signs, and
the reconstruction equations showing the trackers record the applied
transformation. -/
theorem canonCore_inv (d r1 r2 : ℝ) (hd1 : -180 < d) (hd2 : d ≤ 180)
    (h1 : |r1| ≤ 90) (h2 : |r2| ≤ 90) :
    0 ≤ (canonCore d r1 r2).lon12 ∧ (canonCore d r1 r2).lon12 ≤ 180 ∧
      -90 ≤ (canonCore d r1 r2).lat1 ∧ (canonCore d r1 r2).lat1 ≤ 0 ∧
      (canonCore d r1 r2).lat1 ≤ (canonCore d r1 r2).lat2 ∧
      (canonCore d r1 r2).lat2 ≤ -(canonCore d r1 r2).lat1 ∧
      ((canonCore d r1 r2).lonsign = 1 ∨ (canonCore d r1 r2).lonsign = -1) ∧
      ((canonCore d r1 r2).swapp = 1 ∨ (canonCore d r1 r2).swapp = -1) ∧
      ((canonCore d r1 r2).latsign = 1 ∨ (canonCore d r1 r2).latsign = -1) ∧
      (canonCore d r1 r2).swapp * (canonCore d r1 r2).lonsign * (canonCore d r1 r2).lon12 = d ∧
      (canonCore d r1 r2).latsign * (canonCore d r1 r2).lat1
        = (if (canonCore d r1 r2).swapp = 1 then r1 else r2) ∧
      (canonCore d r1 r2).latsign * (canonCore d r1 r2).lat2
        = (if (canonCore d r1 r2).swapp = 1 then r2 else r1) := by
  have ha1 := abs_le.mp h1
  have ha2 := abs_le.mp h2
  have k1 := le_abs_self r1
  have k2 := neg_abs_le r1
  have k3 := le_abs_self r2
  have k4 := neg_abs_le r2
  unfold canonCore
  dsimp only
  by_cases hD : d ≥ 0 <;> by_cases hS : |r1| ≥ |r2|
  · simp only [if_pos hD, if_pos hS, if_neg (show ¬((1 : ℝ) < 0) by norm_num)]
    by_cases hL : r1 < 0
    · have e1 := abs_of_neg hL
      simp only [if_pos hL]
      refine ⟨?_, ?_, ?_, ?_, ?_, ?_, ?_, ?_, ?_, ?_, ?_, ?_⟩ <;> (try norm_num) <;> linarith
    · have e1 := abs_of_nonneg (not_lt.mp hL)
      simp only [if_neg hL]
      refine ⟨?_, ?_, ?_, ?_, ?_, ?_, ?_, ?_, ?_, ?_, ?_, ?_⟩ <;> (try norm_num) <;> linarith
  · push_neg at hS
    simp only [if_pos hD, if_neg (not_le.mpr hS), if_pos (show (-1 : ℝ) < 0 by norm_num)]
    by_cases hL : r2 < 0
    · have e1 := abs_of_neg hL
      simp only [if_pos hL]
      refine ⟨?_, ?_, ?_, ?_, ?_, ?_, ?_, ?_, ?_, ?_, ?_, ?_⟩ <;> (try norm_num) <;> linarith
    · have e1 := abs_of_nonneg (not_lt.mp hL)
      simp only [if_neg hL]
      refine ⟨?_, ?_, ?_, ?_, ?_, ?_, ?_, ?_, ?_, ?_, ?_, ?_⟩ <;> (try norm_num) <;> linarith
  · push_neg at hD
    simp only [if_neg (not_le.mpr hD), if_pos hS, if_neg (show ¬((1 : ℝ) < 0) by norm_num)]
    by_cases hL : r1 < 0
    · have e1 := abs_of_neg hL
      simp only [if_pos hL]
      refine ⟨?_, ?_, ?_, ?_, ?_, ?_, ?_, ?_, ?_, ?_, ?_, ?_⟩ <;> (try norm_num) <;> linarith
    · have e1 := abs_of_nonneg (not_lt.mp hL)
      simp only [if_neg hL]
      refine ⟨?_, ?_, ?_, ?_, ?_, ?_, ?_, ?_, ?_, ?_, ?_, ?_⟩ <;> (try norm_num) <;> linarith
  · push_neg at hD hS
    simp only [if_neg (not_le.mpr hD), if_neg (not_le.mpr hS),
      if_pos (show (-1 : ℝ) < 0 by norm_num)]
    by_cases hL : r2 < 0
    · have e1 := abs_of_neg hL
      simp only [if_pos hL]
      refine ⟨?_, ?_, ?_, ?_, ?_, ?_, ?_, ?_, ?_, ?_, ?_, ?_⟩ <;> (try norm_num) <;> linarith
    · have e1 := abs_of_nonneg (not_lt.mp hL)
      simp only [if_neg hL]
      refine ⟨?_, ?_, ?_, ?_, ?_, ?_, ?_, ?_, ?_, ?_, ?_, ?_⟩ <;> (try norm_num) <;> linarith

/-! ### Claim C6 -/

/-- C6: after the canonicalization phase of `Geodesic::Inverse`, every
finite input with `|lat1| <= 90` and `|lat2| <= 90` satisfies
`0 <= lon12 <= 180`, `-90 <= lat1 <= 0`, `lat1 <= lat2 <= -lat1`, with
`lonsign`, `swapp`, `latsign` in `{1, -1}` recording the applied
transformation. -/
theorem canonical_invariant (lat1 lon1 lat2 lon2 : ℝ)
    (h1 : |lat1| ≤ 90) (h2 : |lat2| ≤ 90) : canonInvariant lat1 lon1 lat2 lon2 := by
  have hm := angNormalize_mem (angNormalize lon2 - angNormalize lon1)
  have hd := angRound_mem hm.1 hm.2
  unfold canonInvariant canonicalize
  exact canonCore_inv _ _ _ hd.1 hd.2 (le_trans (abs_angRound_le _) h1)
    (le_trans (abs_angRound_le _) h2)

/-- Witness for C6 at `(45, 10, -50, 80)`. -/
theorem canonical_invariant_witness :
    |(45 : ℝ)| ≤ 90 ∧ |(-50 : ℝ)| ≤ 90 ∧ canonInvariant 45 10 (-50) 80 :=
  ⟨by norm_num, by norm_num, canonical_invariant 45 10 (-50) 80 (by norm_num) (by norm_num)⟩

theorem newtonGo_count_le (g : Geodesic) (sbet1 cbet1 sbet2 cbet2 chi12t : ℝ)
    (fuel : ℕ) : ∀ (s c : ℝ) (t : ℕ) (o : Chi12Out),
    (newtonGo g sbet1 cbet1 sbet2 cbet2 chi12t fuel s c t o).count ≤ fuel := by
  induction fuel with
  | zero =>
    intro s c t o
    simp [newtonGo]
  | succ n ih =>
    intro s c t o
    unfold newtonGo
    dsimp only
    split_ifs with h h2 <;>
      first
        | exact Nat.succ_le_succ (Nat.zero_le n)
        | (dsimp only; exact Nat.succ_le_succ (ih _ _ _ _))

/-! ### Claim C5 -/

/-- C5 (amended): for every call, the main Newton iteration of
`Geodesic::Inverse` executes at most 50 loop bodies; each step rotates
`(sin alp1, cos alp1)` by `dalp1 = -v/dv` via angle addition, clamps the
**sine** component to `>= 0` (the cosine component is not clamped) and
renormalizes; and the loop stops at a body whose residual satisfies
`|v| <= eps2`, or at the first body after one with `|v| < tol` set the
trip counter. -/
theorem newton_loop_shape (g : Geodesic) (sbet1 cbet1 sbet2 cbet2 chi12t : ℝ) :
    (∀ (s c : ℝ) (t : ℕ) (o : Chi12Out),
        (newtonGo g sbet1 cbet1 sbet2 cbet2 chi12t 50 s c t o).count ≤ 50) ∧
      (∀ θ v dv : ℝ, newtonUpdate (Real.sin θ) (Real.cos θ) v dv
        = sinCosNorm (max 0 (Real.sin (θ + -v / dv))) (Real.cos (θ + -v / dv))) ∧
      ∀ (fuel : ℕ) (s c : ℝ) (t : ℕ) (o : Chi12Out),
        (|(chi12F g sbet1 cbet1 sbet2 cbet2 s c).chi12 - chi12t| ≤ eps2 ∨ 1 ≤ t) →
        newtonGo g sbet1 cbet1 sbet2 cbet2 chi12t (fuel + 1) s c t o
          = ⟨s, c, chi12F g sbet1 cbet1 sbet2 cbet2 s c, 1⟩ := by
  refine ⟨newtonGo_count_le g sbet1 cbet1 sbet2 cbet2 chi12t 50, ?_, ?_⟩
  · intro θ v dv
    unfold newtonUpdate
    rw [Real.sin_add, Real.cos_add]
  · intro fuel s c t o h
    unfold newtonGo
    dsimp only
    rw [if_pos]
    rcases h with h | h
    · exact Or.inl h
    · exact Or.inr (Nat.not_lt.mpr h)

/-- Witness for C5 with the trip counter already set (`t = 1`). -/
theorem newton_loop_shape_witness :
    (|(chi12F wgs84 0 1 0 1 0 1).chi12 - 0| ≤ eps2 ∨ (1 : ℕ) ≤ 1) ∧
      newtonGo wgs84 0 1 0 1 0 4 0 1 1 zeroChi = ⟨0, 1, chi12F wgs84 0 1 0 1 0 1, 1⟩ :=
  ⟨Or.inr (by norm_num),
    (newton_loop_shape wgs84 0 1 0 1 0).2.2 3 0 1 1 zeroChi (Or.inr (by norm_num))⟩

/-- Counterexample to C5 as stated: the update does not clamp the cosine
component; rotating `(0, 1)` by `dalp1 = pi` leaves the cosine at `-1`. -/
theorem newtonUpdate_not_clamped : (newtonUpdate 0 1 (-π) 1).2 < 0 := by
  unfold newtonUpdate sinCosNorm hypot
  norm_num [Real.sin_pi, Real.cos_pi]

end Geo
